import Mathlib

/-!
Verification of `harvest_toolgap.py` (Wild Kratts script project).

The script is a sequential job runner around the OpenAI Responses API.  Its
one piece of genuine design is the lifecycle management of a temporary
vector store used for file-grounded search: upload a file, create a vector
store, add the file, poll the file-membership status until terminal, query,
and tear the store down.

We embed the driver shallowly.  All remote calls (and the one local
`path.exists()` check) are resolved by an oracle supplied to each function;
every call attempt is recorded as an `Event`, so cleanup discipline and
frame conditions ("no remote call happened") are statements about the
produced event trace.  Python exceptions become an explicit `Exc` value
carrying the exception class (`ExcKind`) that the `except` clauses of the
source discriminate on; `try/finally` and `try/except` blocks are translated
by following each raising branch through the handlers of the source text.
The unbounded `while True` polling loop is driven by the oracle's finite
list of retrieve outcomes; exhausting the list models the loop never
reaching a terminal state (`Outcome.hang`), which in the Python process is
an infinite block, not a return and not a raise.
-/

/-- Python exception classes that the source's `except` clauses distinguish:
`FileNotFoundError`, `ValueError`, `openai.APIError`, `RuntimeError`,
`KeyError` (raised by `job["..."]` on a missing key) and a catch-all for any
other `Exception` subclass.  The classes used by the script are pairwise
unrelated by subclassing, so a plain enumeration is faithful. -/
inductive ExcKind
  | fileNotFound
  | valueError
  | apiError
  | runtimeError
  | keyError
  | otherError
deriving DecidableEq, Repr

/-- A raised Python exception: its class and its message. -/
structure Exc where
  kind : ExcKind
  msg : String
deriving DecidableEq, Repr

/-- Processing status of the one file inside the vector store, as returned by
`client.vector_stores.files.retrieve`.  The source compares `vs_file.status`
against the strings "completed" and "failed" and treats anything else as
still in progress; `failed` carries the optional `last_error.message`. -/
inductive VSFileStatus
  | completed
  | failed (lastError : Option String)
  | inProgress (status : String)
deriving DecidableEq, Repr

/-- A path as pathlib's `PurePosixPath` represents it after parsing:
whether it is absolute, and its normalized segments.  PurePosixPath drops
empty segments (repeated or trailing "/") and "." segments at parse time
and keeps ".." segments; the exotic POSIX double-leading-slash root and the
operating system's later resolution of ".." and symlinks are outside the
model. -/
structure PyPath where
  absolute : Bool
  parts : List String
deriving DecidableEq, Repr

/-- Character-level split on the path separator, the segment decomposition
`PurePosixPath` performs on a path string. -/
def splitSlash : List Char → List (List Char)
  | [] => [[]]
  | c :: rest =>
    if c = '/' then [] :: splitSlash rest
    else
      match splitSlash rest with
      | [] => [[c]]
      | seg :: segs => (c :: seg) :: segs

/-- A path string is absolute iff it starts with the separator. -/
def startsWithSlash : List Char → Bool
  | [] => false
  | c :: _ => c == '/'

/-- Segments `PurePosixPath` keeps: non-empty ones other than ".". -/
def keepSeg (seg : List Char) : Bool :=
  !seg.isEmpty && seg != ['.']

/-- `PurePosixPath(s)`: absolute flag plus the kept segments. -/
def parsePath (s : String) : PyPath :=
  ⟨startsWithSlash s.data, ((splitSlash s.data).filter keepSeg).map String.mk⟩

/-- The `/` join of pathlib: an absolute right operand replaces the left
path entirely; otherwise the right operand's segments are appended. -/
def pathJoin (base child : PyPath) : PyPath :=
  if child.absolute then child else ⟨base.absolute, base.parts ++ child.parts⟩

/-- Observable effect of one call attempt made by the script.  Remote calls
are recorded whether they succeed or raise (the attempt is what cleanup
claims are about).  Delete events record whether the remote delete raised;
the source wraps every delete in `try: ... except: pass`, so control flow
never depends on that flag. -/
inductive Event
  | uploadFile
  | createVectorStore (name : String)
  | addFileToVS
  | retrieveStatus
  | deleteVectorStore (vsId : String) (raised : Bool)
  | deleteFile (fileId : String) (raised : Bool)
  | sleepFor (seconds : ℚ)
  | queryWebSearch
  | queryFileSearch
  | writeOutput (path : PyPath)
deriving DecidableEq, Repr

/-- Result of running a piece of the driver: normal return, a propagating
exception, or (for the polling loop) never reaching a terminal state. -/
inductive Outcome (α : Type)
  | ok (a : α)
  | err (e : Exc)
  | hang
deriving DecidableEq, Repr

/-- Normalized response of one `client.responses.create` call:
`response.output_text` and the structured `response.output` items
(opaque here, kept as strings). -/
structure QueryResponse where
  output_text : String
  output_structured : List String
deriving DecidableEq, Repr

/-- The persisted record built by `run_web_search` / `run_file_search`
(lines 93-99 and 206-213): query, creation timestamp, model, for file jobs
the vector store id, and the response output. -/
structure ResultRecord where
  query : String
  created : String
  model : String
  vector_store_id : Option String
  output_text : String
  output_structured : List String
deriving DecidableEq, Repr

/-- One job descriptor from the YAML list.  Python dict access `job["k"]`
raises `KeyError` when the key is missing, which `Option` captures;
`job.get("model")` returns `None` when missing. -/
structure Job where
  type? : Option String
  query? : Option String
  out? : Option String
  model? : Option String
  file_path? : Option String
deriving DecidableEq, Repr

/-- Oracle for the remote calls of `setup_file_search_vector_store`:
outcome of the upload (file id on success), of the vector-store creation
(vector store id on success), of adding the file, the successive outcomes of
the status-retrieve calls of the polling loop, and whether the two wrapped
delete calls would raise (their outcome is swallowed by the source). -/
structure SetupOracle where
  upload : Except Exc String
  createVS : Except Exc String
  addFile : Except Exc Unit
  polls : List (Except Exc VSFileStatus)
  deleteVSRaises : Bool
  deleteFileRaises : Bool

/-- Oracle for one `process_job` call: the local `path.exists()` check, the
setup oracle, the outcomes of the two query calls, and whether the
`cleanup_vector_store` delete would raise. -/
structure JobOracle where
  fileExists : Bool
  setup : SetupOracle
  webQuery : Except Exc QueryResponse
  fileQuery : Except Exc QueryResponse
  cleanupRaises : Bool

/-- Default models of the CONFIG section (lines 51-52). -/
def DEFAULT_WEB_MODEL : String := "gpt-4.1"

/-- Default model for file jobs (line 52). -/
def DEFAULT_FILE_MODEL : String := "gpt-4o-mini"

/-- `smart_sleep` (lines 68-79): returns immediately when `seconds <= 0`,
otherwise sleeps.  Only the sleep itself is an observable event. -/
def smart_sleep (seconds : ℚ) : List Event :=
  if seconds ≤ 0 then [] else [.sleepFor seconds]

/-- The `while True` polling loop of `setup_file_search_vector_store`
(lines 150-177), driven by the list of retrieve outcomes.  Per iteration:
retrieve the file status; on "completed" break (the function then returns
the vector store id); on "failed" raise `RuntimeError("File processing
failed: " + last_error)` — that raise happens inside the `try`, is not an
`APIError`, so it is caught by the loop's own `except Exception` handler,
which attempts deletion of the vector store and of the uploaded file (each
wrapped in `try/except: pass`) and re-raises; on any other status,
`smart_sleep(POLL_INTERVAL_S)` and iterate.  A retrieve raising `APIError`
sleeps `POLL_INTERVAL_S * 2` and iterates; a retrieve raising any other
exception takes the same cleanup-then-re-raise path.  An exhausted oracle
list models the loop never seeing a terminal state: the Python process
blocks forever (`Outcome.hang`). -/
def pollLoop (pollInterval : ℚ) (dVS dFile : Bool) (vsId fileId : String) :
    List (Except Exc VSFileStatus) → Outcome String × List Event
  | [] => (.hang, [])
  | o :: rest =>
    match o with
    | .ok .completed => (.ok vsId, [.retrieveStatus])
    | .ok (.failed lastError) =>
        (.err ⟨.runtimeError, "File processing failed: " ++ lastError.getD "Unknown error"⟩,
         [.retrieveStatus, .deleteVectorStore vsId dVS, .deleteFile fileId dFile])
    | .ok (.inProgress _) =>
        let (r, evs) := pollLoop pollInterval dVS dFile vsId fileId rest
        (r, .retrieveStatus :: (smart_sleep pollInterval ++ evs))
    | .error e =>
        if e.kind = .apiError then
          let (r, evs) := pollLoop pollInterval dVS dFile vsId fileId rest
          (r, .retrieveStatus :: (smart_sleep (pollInterval * 2) ++ evs))
        else
          (.err e, [.retrieveStatus, .deleteVectorStore vsId dVS, .deleteFile fileId dFile])

/-- `setup_file_search_vector_store` (lines 102-179).  Step 1 upload: a
failure re-raises with nothing to clean.  Step 2 create the vector store
named `temp_vs_<stem>_<timestamp>`: a failure attempts deletion of the
uploaded file (swallowed) and re-raises.  Step 3 add the file: a failure
attempts deletion of the vector store and of the file (each swallowed) and
re-raises.  Step 4 the polling loop; on completion the vector store id is
returned. -/
def setup_file_search_vector_store (o : SetupOracle) (pollInterval : ℚ)
    (stem ts : String) : Outcome String × List Event :=
  match o.upload with
  | .error e => (.err e, [.uploadFile])
  | .ok file_id =>
    let vs_name := "temp_vs_" ++ stem ++ "_" ++ ts
    match o.createVS with
    | .error e =>
        (.err e, [.uploadFile, .createVectorStore vs_name, .deleteFile file_id o.deleteFileRaises])
    | .ok vs_id =>
      match o.addFile with
      | .error e =>
          (.err e, [.uploadFile, .createVectorStore vs_name, .addFileToVS,
                    .deleteVectorStore vs_id o.deleteVSRaises, .deleteFile file_id o.deleteFileRaises])
      | .ok _ =>
        let (r, evs) := pollLoop pollInterval o.deleteVSRaises o.deleteFileRaises vs_id file_id o.polls
        (r, .uploadFile :: .createVectorStore vs_name :: .addFileToVS :: evs)

/-- `cleanup_vector_store` (lines 181-188): attempts to delete a vector
store; any exception from the delete is caught and only logged, so the
function always returns normally, whatever the delete outcome. -/
def cleanup_vector_store (vector_store_id : String) (raised : Bool) : List Event :=
  [.deleteVectorStore vector_store_id raised]

/-- `run_web_search` (lines 83-99): one Responses API call with the
web_search_preview tool, normalized into a `ResultRecord`. -/
def run_web_search (query ts model : String) (o : Except Exc QueryResponse) :
    Except Exc ResultRecord × List Event :=
  match o with
  | .error e => (.error e, [.queryWebSearch])
  | .ok resp =>
      (.ok ⟨query, ts, model, none, resp.output_text, resp.output_structured⟩, [.queryWebSearch])

/-- `run_file_search` (lines 191-213): one Responses API call with the
file_search tool scoped to the given vector store, normalized into a
`ResultRecord` additionally tagged with the vector store id. -/
def run_file_search (query vector_store_id ts model : String)
    (o : Except Exc QueryResponse) : Except Exc ResultRecord × List Event :=
  match o with
  | .error e => (.error e, [.queryFileSearch])
  | .ok resp =>
      (.ok ⟨query, ts, model, some vector_store_id, resp.output_text, resp.output_structured⟩,
       [.queryFileSearch])

/-- Model resolution of `process_job` (lines 221-228): `job.get("model")`
followed by `if not model: model = DEFAULT`; Python treats both `None` and
the empty string as falsy. -/
def resolveModel (model? : Option String) (dflt : String) : String :=
  match model? with
  | none => dflt
  | some m => if m = "" then dflt else m

/-- Output path of a job (line 254): `out_path = outdir / job["out"]`,
with pathlib's join semantics: "." segments and repeated or trailing
separators collapse at parse time, and an `out` that is an absolute path
replaces the run directory entirely. -/
def jobOutPath (outdir out : String) : PyPath :=
  pathJoin (parsePath outdir) (parsePath out)

/-- `job["type"].lower()` (line 219): Python string lowercasing, modelled
character-wise (the job types of this script are plain ASCII). -/
def pyLower (s : String) : String := String.mk (s.data.map Char.toLower)

/-- `process_job` (lines 218-267).  `job["type"].lower()` dispatches; a
missing key raises `KeyError`.  The web branch looks up `job["query"]` and
calls `run_web_search`.  The file branch runs under `try/finally` with
`vector_store_id = None`: a missing `file_path` key raises `ValueError`, a
non-existing path raises `FileNotFoundError` (both before any remote call,
and with `vector_store_id` still `None` the `finally` block does nothing);
then `setup_file_search_vector_store` runs — if it raises,
`vector_store_id` was never assigned and the `finally` block again skips
cleanup (the setup function did its own); if it returns,
`run_file_search(job["query"], ...)` runs and the `finally` block calls
`cleanup_vector_store` on every continuation (query success, query failure,
and the `KeyError` of a missing `query`).  An unknown type raises
`ValueError`.  After the branch, the result is written to
`outdir / job["out"]` and `smart_sleep(sleep_s)` runs. -/
def process_job (job : Job) (outdir : String) (sleep_s pollInterval : ℚ)
    (ts : String) (o : JobOracle) : Outcome Unit × List Event :=
  match job.type? with
  | none => (.err ⟨.keyError, "type"⟩, [])
  | some ty =>
    let job_type := pyLower ty
    if job_type = "web" then
      let model := resolveModel job.model? DEFAULT_WEB_MODEL
      match job.query? with
      | none => (.err ⟨.keyError, "query"⟩, [])
      | some q =>
        match run_web_search q ts model o.webQuery with
        | (.error e, evs) => (.err e, evs)
        | (.ok _, evs) =>
          match job.out? with
          | none => (.err ⟨.keyError, "out"⟩, evs)
          | some out =>
              (.ok (), evs ++ [.writeOutput (jobOutPath outdir out)] ++ smart_sleep sleep_s)
    else if job_type = "file" then
      let model := resolveModel job.model? DEFAULT_FILE_MODEL
      match job.file_path? with
      | none => (.err ⟨.valueError, "Job type file requires file_path for this script."⟩, [])
      | some p =>
        if o.fileExists then
          match setup_file_search_vector_store o.setup pollInterval p ts with
          | (.hang, evs) => (.hang, evs)
          | (.err e, evs) => (.err e, evs)
          | (.ok vector_store_id, evs) =>
            match job.query? with
            | none =>
                (.err ⟨.keyError, "query"⟩,
                 evs ++ cleanup_vector_store vector_store_id o.cleanupRaises)
            | some q =>
              match run_file_search q vector_store_id ts model o.fileQuery with
              | (.error e, qevs) =>
                  (.err e, evs ++ qevs ++ cleanup_vector_store vector_store_id o.cleanupRaises)
              | (.ok _, qevs) =>
                match job.out? with
                | none =>
                    (.err ⟨.keyError, "out"⟩,
                     evs ++ qevs ++ cleanup_vector_store vector_store_id o.cleanupRaises)
                | some out =>
                    (.ok (),
                     evs ++ qevs ++ cleanup_vector_store vector_store_id o.cleanupRaises
                         ++ [.writeOutput (jobOutPath outdir out)] ++ smart_sleep sleep_s)
        else
          (.err ⟨.fileNotFound, "File not found at path: " ++ p⟩, [])
    else
      (.err ⟨.valueError, "Unknown job type: " ++ job_type⟩, [])

/-- How the `except` clauses of the job loop (lines 325-339) classify a
propagating exception: `FileNotFoundError` is reported as "Input file not
found", `ValueError` as "Configuration error", `APIError` as "OpenAI API
Error", and anything else as "Unexpected error". -/
inductive FailureClass
  | inputFileNotFound
  | configError
  | openaiApiError
  | unexpectedError
deriving DecidableEq, Repr

/-- Classification of an exception by the job loop's `except` clauses, in
their source order (the four classes are unrelated by subclassing). -/
def classify (e : Exc) : FailureClass :=
  match e.kind with
  | .fileNotFound => .inputFileNotFound
  | .valueError => .configError
  | .apiError => .openaiApiError
  | _ => .unexpectedError

/-- The job loop of `cli` (lines 318-339): iterate over the job list, call
`process_job`, catch any exception, increment `job_failures`, continue.
Returns the final failure count, the per-job outcomes in order, and the
concatenated event trace.  A job that hangs blocks the process: later jobs
are never attempted. -/
def runJobs (outdir : String) (sleep_s pollInterval : ℚ) (ts : String) :
    List (Job × JobOracle) → Nat × List (Outcome Unit) × List Event
  | [] => (0, [], [])
  | (j, o) :: rest =>
    match process_job j outdir sleep_s pollInterval ts o with
    | (.hang, evs) => (0, [.hang], evs)
    | (.ok _, evs) =>
      let (n, outs, evss) := runJobs outdir sleep_s pollInterval ts rest
      (n, .ok () :: outs, evs ++ evss)
    | (.err e, evs) =>
      let (n, outs, evss) := runJobs outdir sleep_s pollInterval ts rest
      (n + 1, .err e :: outs, evs ++ evss)

/-- Summary line printed after the job loop (lines 341-345). -/
def cliSummary (job_failures : Nat) : String :=
  if job_failures = 0 then "All jobs completed successfully."
  else "All jobs processed. " ++ toString job_failures ++ " job(s) encountered errors."

/-- Exit status of the process after the job loop: `cli` prints the summary
and falls off the end of the function (lines 341-345); there is no
`sys.exit` after the loop, so the interpreter exits with status 0 whatever
`job_failures` is. -/
def cliExitCode (job_failures : Nat) : Nat :=
  let _ := cliSummary job_failures
  0

/-- Per-run output directory (line 296):
`outdir = pathlib.Path(args.outdir) / run_timestamp`, with the same
pathlib join semantics as `jobOutPath`. -/
def runOutDir (baseOutdir run_timestamp : String) : PyPath :=
  pathJoin (parsePath baseOutdir) (parsePath run_timestamp)

/-- Event predicates used by the cleanup-discipline statements. -/
def isDeleteVS : Event → Bool
  | .deleteVectorStore _ _ => true
  | _ => false

/-- True for a delete attempt of the vector store with the given id. -/
def isDeleteVSId (vsId : String) : Event → Bool
  | .deleteVectorStore i _ => i = vsId
  | _ => false

/-- True for a delete attempt of the uploaded file. -/
def isDeleteFile : Event → Bool
  | .deleteFile _ _ => true
  | _ => false

/-- True for a per-job outcome that is a propagating exception. -/
def isErr : Outcome Unit → Bool
  | .err _ => true
  | _ => false

/-- The paths written during a trace, in order. -/
def writtenPaths (evs : List Event) : List PyPath :=
  evs.filterMap fun e =>
    match e with
    | .writeOutput p => some p
    | _ => none

/-- A status on which the polling loop may terminate. -/
def VSFileStatus.isTerminal : VSFileStatus → Bool
  | .completed => true
  | .failed _ => true
  | .inProgress _ => false

/-- First terminal status of a retrieved-status sequence, if any. -/
def firstTerminal (ss : List VSFileStatus) : Option VSFileStatus :=
  ss.find? VSFileStatus.isTerminal

/-! ## Helper lemmas about the polling loop's traces -/

/-- `smart_sleep` emits at most its own sleep event. -/
theorem smart_sleep_eq (x : ℚ) :
    smart_sleep x = [] ∨ smart_sleep x = [.sleepFor x] := by
  unfold smart_sleep
  split
  · exact Or.inl rfl
  · exact Or.inr rfl

/-- A sleep emits no vector-store delete event. -/
theorem smart_sleep_filter_deleteVS (x : ℚ) :
    (smart_sleep x).filter isDeleteVS = [] := by
  rcases smart_sleep_eq x with h | h <;> simp [h, isDeleteVS]

/-- A sleep emits no file delete event. -/
theorem smart_sleep_filter_deleteFile (x : ℚ) :
    (smart_sleep x).filter isDeleteFile = [] := by
  rcases smart_sleep_eq x with h | h <;> simp [h, isDeleteFile]

/-- The vector-store delete attempts of a polling-loop trace: exactly one,
of the store being polled, when the loop ends in a propagating exception;
none when it completes or never terminates. -/
theorem pollLoop_filter_deleteVS (pollInterval : ℚ) (dVS dFile : Bool)
    (vsId fileId : String) (polls : List (Except Exc VSFileStatus)) :
    (pollLoop pollInterval dVS dFile vsId fileId polls).2.filter isDeleteVS
      = (match (pollLoop pollInterval dVS dFile vsId fileId polls).1 with
         | .err _ => [Event.deleteVectorStore vsId dVS]
         | _ => []) := by
  induction polls with
  | nil => simp [pollLoop]
  | cons o rest ih =>
    rcases hp : pollLoop pollInterval dVS dFile vsId fileId rest with ⟨r, evs⟩
    rw [hp] at ih
    match o with
    | .ok .completed => simp [pollLoop, isDeleteVS]
    | .ok (.failed em) => simp [pollLoop, isDeleteVS]
    | .ok (.inProgress s) =>
      simp only [pollLoop, hp, List.filter_cons, List.filter_append,
        smart_sleep_filter_deleteVS, isDeleteVS]
      simpa using ih
    | .error e =>
      by_cases hk : e.kind = .apiError
      · simp only [pollLoop, hk, if_true, hp, List.filter_cons, List.filter_append,
          smart_sleep_filter_deleteVS, isDeleteVS]
        simpa using ih
      · simp [pollLoop, hk, isDeleteVS]

/-- The uploaded-file delete attempts of a polling-loop trace: exactly one
when the loop ends in a propagating exception, none otherwise. -/
theorem pollLoop_filter_deleteFile (pollInterval : ℚ) (dVS dFile : Bool)
    (vsId fileId : String) (polls : List (Except Exc VSFileStatus)) :
    (pollLoop pollInterval dVS dFile vsId fileId polls).2.filter isDeleteFile
      = (match (pollLoop pollInterval dVS dFile vsId fileId polls).1 with
         | .err _ => [Event.deleteFile fileId dFile]
         | _ => []) := by
  induction polls with
  | nil => simp [pollLoop]
  | cons o rest ih =>
    rcases hp : pollLoop pollInterval dVS dFile vsId fileId rest with ⟨r, evs⟩
    rw [hp] at ih
    match o with
    | .ok .completed => simp [pollLoop, isDeleteFile]
    | .ok (.failed em) => simp [pollLoop, isDeleteFile]
    | .ok (.inProgress s) =>
      simp only [pollLoop, hp, List.filter_cons, List.filter_append,
        smart_sleep_filter_deleteFile, isDeleteFile]
      simpa using ih
    | .error e =>
      by_cases hk : e.kind = .apiError
      · simp only [pollLoop, hk, if_true, hp, List.filter_cons, List.filter_append,
          smart_sleep_filter_deleteFile, isDeleteFile]
        simpa using ih
      · simp [pollLoop, hk, isDeleteFile]

/-- When the polling loop returns normally, the returned id is the id of the
vector store being polled. -/
theorem pollLoop_ok_id (pollInterval : ℚ) (dVS dFile : Bool)
    (vsId fileId : String) (polls : List (Except Exc VSFileStatus))
    (v : String) (evs : List Event)
    (h : pollLoop pollInterval dVS dFile vsId fileId polls = (.ok v, evs)) :
    v = vsId := by
  induction polls generalizing evs with
  | nil => simp [pollLoop] at h
  | cons o rest ih =>
    match o with
    | .ok .completed =>
      rw [show pollLoop pollInterval dVS dFile vsId fileId (.ok .completed :: rest)
            = (.ok vsId, [.retrieveStatus]) from rfl] at h
      rw [Prod.mk.injEq] at h
      exact (Outcome.ok.inj h.1).symm
    | .ok (.failed em) => simp [pollLoop] at h
    | .ok (.inProgress s) =>
      rcases hp : pollLoop pollInterval dVS dFile vsId fileId rest with ⟨r, evs2⟩
      simp only [pollLoop, hp] at h
      rw [Prod.mk.injEq] at h
      rw [h.1] at hp
      exact ih evs2 hp
    | .error e =>
      by_cases hk : e.kind = .apiError
      · rcases hp : pollLoop pollInterval dVS dFile vsId fileId rest with ⟨r, evs2⟩
        simp only [pollLoop, hk, if_true, hp] at h
        rw [Prod.mk.injEq] at h
        rw [h.1] at hp
        exact ih evs2 hp
      · simp [pollLoop, hk] at h

/-! ## Claim theorems: the polling loop -/

/-- C10: when a status check returns the terminal "failed" status, the
`RuntimeError` carrying the remote error message is raised inside the `try`
and caught by the loop's own `except Exception` handler, which attempts
best-effort deletion of both the vector store and the uploaded file (the
events appear for every value of the swallowed delete outcomes `dVS`,
`dFile`) before the error propagates — exactly the cleanup path of any
other non-transient polling exception, so a processing failure does not
leak the remote resources. -/
theorem failed_status_takes_cleanup_path (pollInterval : ℚ) (dVS dFile : Bool)
    (vsId fileId : String) (em : Option String)
    (rest : List (Except Exc VSFileStatus)) :
    pollLoop pollInterval dVS dFile vsId fileId (.ok (.failed em) :: rest)
      = (.err ⟨.runtimeError, "File processing failed: " ++ em.getD "Unknown error"⟩,
         [.retrieveStatus, .deleteVectorStore vsId dVS, .deleteFile fileId dFile]) := rfl

/-- C7: a transient `APIError` raised by a status check is retried after a
sleep of twice the poll interval — the loop's outcome is that of the
remaining iterations and no cleanup event is emitted at this step — whereas
a non-`APIError` exception triggers best-effort deletion of both the vector
store and the uploaded file and re-raises the original exception. -/
theorem polling_transient_retried_nontransient_cleans
    (pollInterval : ℚ) (dVS dFile : Bool) (vsId fileId : String) (e : Exc)
    (rest : List (Except Exc VSFileStatus)) (hpi : 0 < pollInterval) :
    (e.kind = .apiError →
      pollLoop pollInterval dVS dFile vsId fileId (.error e :: rest)
        = ((pollLoop pollInterval dVS dFile vsId fileId rest).1,
           .retrieveStatus :: .sleepFor (pollInterval * 2)
             :: (pollLoop pollInterval dVS dFile vsId fileId rest).2))
    ∧ (e.kind ≠ .apiError →
      pollLoop pollInterval dVS dFile vsId fileId (.error e :: rest)
        = (.err e, [.retrieveStatus, .deleteVectorStore vsId dVS,
                    .deleteFile fileId dFile])) := by
  constructor
  · intro hk
    rcases hp : pollLoop pollInterval dVS dFile vsId fileId rest with ⟨r, evs⟩
    have hs : smart_sleep (pollInterval * 2) = [.sleepFor (pollInterval * 2)] := by
      unfold smart_sleep
      rw [if_neg]
      intro hle
      nlinarith
    simp only [pollLoop, hk, if_true, hp, hs]
    rfl
  · intro hk
    simp [pollLoop, hk]

/-- Witness for C7: one concrete transient retry (poll interval 5, sleep of
10, the loop then completes) and one concrete non-transient abort with both
cleanup events. -/
theorem polling_transient_retried_nontransient_cleans_witness :
    (pollLoop 5 false false "vs" "f"
        [.error ⟨.apiError, "rate limited"⟩, .ok .completed]
      = (.ok "vs", [.retrieveStatus, .sleepFor 10, .retrieveStatus]))
    ∧ (pollLoop 5 false false "vs" "f" [.error ⟨.otherError, "boom"⟩]
      = (.err ⟨.otherError, "boom"⟩,
         [.retrieveStatus, .deleteVectorStore "vs" false, .deleteFile "f" false])) := by
  constructor
  · have h := (polling_transient_retried_nontransient_cleans 5 false false "vs" "f"
      ⟨.apiError, "rate limited"⟩ [.ok .completed] (by norm_num)).1 rfl
    rw [h]
    norm_num [pollLoop]
  · exact (polling_transient_retried_nontransient_cleans 5 false false "vs" "f"
      ⟨.otherError, "boom"⟩ [] (by norm_num)).2 (by decide)

/-- C3: on a sequence of retrieved statuses (every status check returning),
the polling loop terminates only at the first terminal status: it returns
the vector store id exactly when that status is "completed"; when it is
"failed" it raises a `RuntimeError` whose message appends the
remote-supplied error message (so the message contains it); and on a
sequence with no terminal status it neither returns nor raises — the loop
spins forever. -/
theorem pollLoop_terminates_only_on_terminal (pollInterval : ℚ) (dVS dFile : Bool)
    (vsId fileId : String) (ss : List VSFileStatus) :
    ((pollLoop pollInterval dVS dFile vsId fileId (ss.map Except.ok)).1 = .ok vsId
        ↔ firstTerminal ss = some .completed)
    ∧ (∀ em, firstTerminal ss = some (.failed em) →
        (pollLoop pollInterval dVS dFile vsId fileId (ss.map Except.ok)).1
          = .err ⟨.runtimeError, "File processing failed: " ++ em.getD "Unknown error"⟩)
    ∧ (∀ m, firstTerminal ss = some (.failed (some m)) →
        ∃ pre post, (pollLoop pollInterval dVS dFile vsId fileId (ss.map Except.ok)).1
          = .err ⟨.runtimeError, pre ++ (m ++ post)⟩)
    ∧ (firstTerminal ss = none →
        (pollLoop pollInterval dVS dFile vsId fileId (ss.map Except.ok)).1 = .hang) := by
  induction ss with
  | nil =>
    refine ⟨?_, ?_, ?_, ?_⟩ <;> simp [pollLoop, firstTerminal]
  | cons s ss ih =>
    match s with
    | .completed =>
      refine ⟨?_, ?_, ?_, ?_⟩ <;>
        simp [pollLoop, firstTerminal, List.find?, VSFileStatus.isTerminal]
    | .failed em =>
      refine ⟨?_, ?_, ?_, ?_⟩
      · simp [pollLoop, firstTerminal, List.find?, VSFileStatus.isTerminal]
      · intro em' hm
        simp only [firstTerminal, List.find?, VSFileStatus.isTerminal] at hm
        rw [Option.some.injEq] at hm
        rw [← VSFileStatus.failed.inj hm]
        rfl
      · intro m hm
        simp only [firstTerminal, List.find?, VSFileStatus.isTerminal] at hm
        rw [Option.some.injEq] at hm
        have hem : em = some m := VSFileStatus.failed.inj hm
        subst hem
        refine ⟨"File processing failed: ", "", ?_⟩
        have hm' : m ++ "" = m := by simp
        rw [hm']
        rfl
      · intro hm
        simp [firstTerminal, List.find?, VSFileStatus.isTerminal] at hm
    | .inProgress st =>
      rcases hp : pollLoop pollInterval dVS dFile vsId fileId (ss.map Except.ok) with ⟨r, evs⟩
      rw [hp] at ih
      have hstep : (pollLoop pollInterval dVS dFile vsId fileId
          ((VSFileStatus.inProgress st :: ss).map Except.ok)).1 = r := by
        simp only [List.map_cons, pollLoop, hp]
      have hft : firstTerminal (VSFileStatus.inProgress st :: ss) = firstTerminal ss := by
        simp [firstTerminal, List.find?, VSFileStatus.isTerminal]
      rw [hstep, hft]
      exact ih

/-- Witness for C3: two pending checks then "failed" with remote message
"bad format" — the loop raises a `RuntimeError` whose message contains
"bad format"; and the all-pending sequence neither returns nor raises. -/
theorem pollLoop_terminates_only_on_terminal_witness :
    ((pollLoop 5 false false "vs" "f"
        ([VSFileStatus.inProgress "in_progress", .failed (some "bad format")].map Except.ok)).1
      = .err ⟨.runtimeError, "File processing failed: bad format"⟩)
    ∧ (∃ pre post, (pollLoop 5 false false "vs" "f"
        ([VSFileStatus.inProgress "in_progress", .failed (some "bad format")].map Except.ok)).1
      = .err ⟨.runtimeError, pre ++ ("bad format" ++ post)⟩)
    ∧ ((pollLoop 5 false false "vs" "f"
        ([VSFileStatus.inProgress "in_progress", .inProgress "in_progress"].map Except.ok)).1
      = .hang) := by
  refine ⟨?_, ?_, ?_⟩
  · have h := (pollLoop_terminates_only_on_terminal 5 false false "vs" "f"
      [VSFileStatus.inProgress "in_progress", .failed (some "bad format")]).2.1
      (some "bad format") (by decide)
    exact h
  · exact (pollLoop_terminates_only_on_terminal 5 false false "vs" "f"
      [VSFileStatus.inProgress "in_progress", .failed (some "bad format")]).2.2.1
      "bad format" (by decide)
  · exact (pollLoop_terminates_only_on_terminal 5 false false "vs" "f"
      [VSFileStatus.inProgress "in_progress", .inProgress "in_progress"]).2.2.2
      (by decide)

/-! ## Claim theorems: cleanup discipline of a file job -/

/-- Once its creation succeeded, the lifecycle manager's own trace deletes
the vector store exactly once when it raises, and not at all when it
returns the store or never terminates (`process_job`'s `finally` block then
owns the cleanup). -/
theorem setup_filter_deleteVS (o : SetupOracle) (pollInterval : ℚ) (stem ts : String)
    (fid vsId : String) (hup : o.upload = .ok fid) (hcr : o.createVS = .ok vsId) :
    (setup_file_search_vector_store o pollInterval stem ts).2.filter isDeleteVS
      = (match (setup_file_search_vector_store o pollInterval stem ts).1 with
         | .err _ => [Event.deleteVectorStore vsId o.deleteVSRaises]
         | _ => []) := by
  unfold setup_file_search_vector_store
  rw [hup, hcr]
  match haf : o.addFile with
  | .error e => simp [isDeleteVS]
  | .ok _ =>
    rcases hpl : pollLoop pollInterval o.deleteVSRaises o.deleteFileRaises vsId fid o.polls
      with ⟨r, pevs⟩
    have hfil := pollLoop_filter_deleteVS pollInterval o.deleteVSRaises o.deleteFileRaises
      vsId fid o.polls
    rw [hpl] at hfil
    simp only [hpl, List.filter_cons, isDeleteVS]
    simpa using hfil

/-- Once the upload succeeded, the lifecycle manager's own trace deletes the
uploaded file exactly once when it raises, and never otherwise — in
particular not when it returns the vector store id. -/
theorem setup_filter_deleteFile (o : SetupOracle) (pollInterval : ℚ) (stem ts : String)
    (fid : String) (hup : o.upload = .ok fid) :
    (setup_file_search_vector_store o pollInterval stem ts).2.filter isDeleteFile
      = (match (setup_file_search_vector_store o pollInterval stem ts).1 with
         | .err _ => [Event.deleteFile fid o.deleteFileRaises]
         | _ => []) := by
  unfold setup_file_search_vector_store
  rw [hup]
  match hcr : o.createVS with
  | .error e => simp [isDeleteFile]
  | .ok vsId =>
    match haf : o.addFile with
    | .error e => simp [isDeleteFile]
    | .ok _ =>
      rcases hpl : pollLoop pollInterval o.deleteVSRaises o.deleteFileRaises vsId fid o.polls
        with ⟨r, pevs⟩
      have hfil := pollLoop_filter_deleteFile pollInterval o.deleteVSRaises o.deleteFileRaises
        vsId fid o.polls
      rw [hpl] at hfil
      simp only [hpl, List.filter_cons, isDeleteFile]
      simpa using hfil

/-- When the lifecycle manager returns normally, the returned id is the one
the creation call produced. -/
theorem setup_ok_id (o : SetupOracle) (pollInterval : ℚ) (stem ts : String)
    (fid vsId : String) (hup : o.upload = .ok fid) (hcr : o.createVS = .ok vsId)
    (v : String) (evs : List Event)
    (h : setup_file_search_vector_store o pollInterval stem ts = (.ok v, evs)) :
    v = vsId := by
  unfold setup_file_search_vector_store at h
  rw [hup, hcr] at h
  match haf : o.addFile with
  | .error e => rw [haf] at h; simp at h
  | .ok _ =>
    rw [haf] at h
    rcases hpl : pollLoop pollInterval o.deleteVSRaises o.deleteFileRaises vsId fid o.polls
      with ⟨r, pevs⟩
    simp only [hpl] at h
    rw [Prod.mk.injEq] at h
    exact pollLoop_ok_id pollInterval o.deleteVSRaises o.deleteFileRaises vsId fid o.polls
      v pevs (by rw [hpl, h.1])

/-- Reduction of `process_job` on a `file` job whose path exists: the
`try/finally` block composes setup, query and `finally`-cleanup exactly as
in lines 227-248 of the source. -/
theorem process_job_file_eq (job : Job) (outdir : String) (sleep_s pollInterval : ℚ)
    (ts : String) (o : JobOracle) (ty p : String)
    (hty : job.type? = some ty) (hfile : pyLower ty = "file")
    (hpath : job.file_path? = some p) (hex : o.fileExists = true) :
    process_job job outdir sleep_s pollInterval ts o =
      match setup_file_search_vector_store o.setup pollInterval p ts with
      | (.hang, evs) => (.hang, evs)
      | (.err e, evs) => (.err e, evs)
      | (.ok vector_store_id, evs) =>
        match job.query? with
        | none => (.err ⟨.keyError, "query"⟩,
            evs ++ cleanup_vector_store vector_store_id o.cleanupRaises)
        | some q =>
          match run_file_search q vector_store_id ts
              (resolveModel job.model? DEFAULT_FILE_MODEL) o.fileQuery with
          | (.error e, qevs) => (.err e,
              evs ++ qevs ++ cleanup_vector_store vector_store_id o.cleanupRaises)
          | (.ok _, qevs) =>
            match job.out? with
            | none => (.err ⟨.keyError, "out"⟩,
                evs ++ qevs ++ cleanup_vector_store vector_store_id o.cleanupRaises)
            | some out => (.ok (),
                evs ++ qevs ++ cleanup_vector_store vector_store_id o.cleanupRaises
                    ++ [.writeOutput (jobOutPath outdir out)] ++ smart_sleep sleep_s) := by
  unfold process_job
  rw [hty]
  simp only [hfile]
  rw [if_neg (by decide : ¬ ("file" : String) = "web")]
  rw [hpath]
  simp [hex]

/-- C2: for a `file` job whose vector-store creation succeeded, deletion of
that vector store is attempted exactly once during the job, on every
terminating path — add-file failure, polling failure, terminal "failed"
status, query failure (including the `KeyError` of a missing `query`), and
query success.  The boolean records whether the swallowed delete raised. -/
theorem file_job_deletes_vector_store_exactly_once
    (job : Job) (outdir : String) (sleep_s pollInterval : ℚ) (ts : String) (o : JobOracle)
    (ty p fid vsId : String)
    (hty : job.type? = some ty) (hfile : pyLower ty = "file")
    (hpath : job.file_path? = some p) (hex : o.fileExists = true)
    (hup : o.setup.upload = .ok fid) (hcr : o.setup.createVS = .ok vsId)
    (hterm : (process_job job outdir sleep_s pollInterval ts o).1 ≠ .hang) :
    ∃ b : Bool,
      (process_job job outdir sleep_s pollInterval ts o).2.filter isDeleteVS
        = [Event.deleteVectorStore vsId b] := by
  rw [process_job_file_eq job outdir sleep_s pollInterval ts o ty p hty hfile hpath hex]
    at hterm ⊢
  rcases hs : setup_file_search_vector_store o.setup pollInterval p ts with ⟨sr, sevs⟩
  have hDV := setup_filter_deleteVS o.setup pollInterval p ts fid vsId hup hcr
  rw [hs] at hDV hterm
  cases sr with
  | hang => exact absurd rfl hterm
  | err e =>
    have hDV1 : sevs.filter isDeleteVS
        = [Event.deleteVectorStore vsId o.setup.deleteVSRaises] := hDV
    exact ⟨o.setup.deleteVSRaises, hDV1⟩
  | ok v =>
    have hv : v = vsId := setup_ok_id o.setup pollInterval p ts fid vsId hup hcr v sevs hs
    subst hv
    have hDV0 : sevs.filter isDeleteVS = [] := hDV
    rcases hq : job.query? with _ | q
    · refine ⟨o.cleanupRaises, ?_⟩
      simp [cleanup_vector_store, List.filter_append, hDV0, isDeleteVS]
    · rcases hfq : o.fileQuery with e2 | resp
      · refine ⟨o.cleanupRaises, ?_⟩
        simp [run_file_search, cleanup_vector_store, List.filter_append, hDV0, isDeleteVS]
      · rcases hout : job.out? with _ | out
        · refine ⟨o.cleanupRaises, ?_⟩
          simp [run_file_search, cleanup_vector_store, List.filter_append, hDV0, isDeleteVS]
        · refine ⟨o.cleanupRaises, ?_⟩
          simp [run_file_search, cleanup_vector_store, List.filter_append, hDV0, isDeleteVS,
            smart_sleep_filter_deleteVS]

/-- A fully successful concrete `file` job: one pending poll then
"completed", query succeeds, output written. -/
def happyJob : Job :=
  ⟨some "file", some "Summarize the document.", some "doc.json", none, some "docs/doc.pdf"⟩

/-- Concrete successful query response used by the witnesses. -/
def happyResponse : QueryResponse := ⟨"the answer", ["message"]⟩

/-- Setup oracle of the happy path: upload yields "file-1", creation yields
"vs-1", the add succeeds, one pending poll then "completed". -/
def happySetup : SetupOracle :=
  ⟨.ok "file-1", .ok "vs-1", .ok (), [.ok (.inProgress "in_progress"), .ok .completed],
   false, false⟩

/-- Job oracle of the happy path. -/
def happyOracle : JobOracle :=
  ⟨true, happySetup, .ok happyResponse, .ok happyResponse, false⟩

/-- Witness for C2: the happy-path `file` job deletes vector store "vs-1"
exactly once. -/
theorem file_job_deletes_vector_store_exactly_once_witness :
    ∃ b : Bool,
      (process_job happyJob "stash/run" 0 5 "ts" happyOracle).2.filter isDeleteVS
        = [Event.deleteVectorStore "vs-1" b] :=
  file_job_deletes_vector_store_exactly_once happyJob "stash/run" 0 5 "ts" happyOracle
    "file" "docs/doc.pdf" "file-1" "vs-1" rfl (by decide) rfl rfl rfl rfl (by decide)

/-- Counterexample to C1: on the fully successful happy-path `file` job the
job returns normally, the vector store is torn down, but no deletion of the
uploaded file handle is ever attempted — `process_job`'s `finally` block
(lines 245-248) only calls `cleanup_vector_store`, so the success path
leaks the uploaded file. -/
theorem file_job_success_leaks_uploaded_file :
    (process_job happyJob "stash/run" 0 5 "ts" happyOracle).1 = .ok ()
    ∧ (process_job happyJob "stash/run" 0 5 "ts" happyOracle).2.filter isDeleteFile = []
    ∧ (process_job happyJob "stash/run" 0 5 "ts" happyOracle).2.filter isDeleteVS
        = [Event.deleteVectorStore "vs-1" false] := by decide

/-- C1 amended: for a `file` job, teardown of the vector store is attempted
before control returns on every terminating path on which it was created,
but the uploaded file handle is torn down only when
`setup_file_search_vector_store` itself raises (creation failure, add-file
failure, non-transient polling failure, terminal "failed" status); once
setup has returned — on query success as well as query failure — the
uploaded file handle is never deleted. -/
theorem file_job_file_teardown_only_on_setup_failure
    (job : Job) (outdir : String) (sleep_s pollInterval : ℚ) (ts : String) (o : JobOracle)
    (ty p fid : String)
    (hty : job.type? = some ty) (hfile : pyLower ty = "file")
    (hpath : job.file_path? = some p) (hex : o.fileExists = true)
    (hup : o.setup.upload = .ok fid) :
    (process_job job outdir sleep_s pollInterval ts o).2.filter isDeleteFile
      = (match (setup_file_search_vector_store o.setup pollInterval p ts).1 with
         | .err _ => [Event.deleteFile fid o.setup.deleteFileRaises]
         | _ => []) := by
  rw [process_job_file_eq job outdir sleep_s pollInterval ts o ty p hty hfile hpath hex]
  rcases hs : setup_file_search_vector_store o.setup pollInterval p ts with ⟨sr, sevs⟩
  have hDF := setup_filter_deleteFile o.setup pollInterval p ts fid hup
  rw [hs] at hDF
  cases sr with
  | hang => exact hDF
  | err e => exact hDF
  | ok v =>
    have hDF0 : sevs.filter isDeleteFile = [] := hDF
    rcases hq : job.query? with _ | q
    · simp [cleanup_vector_store, List.filter_append, hDF0, isDeleteFile]
    · rcases hfq : o.fileQuery with e2 | resp
      · simp [run_file_search, cleanup_vector_store, List.filter_append, hDF0, isDeleteFile]
      · rcases hout : job.out? with _ | out
        · simp [run_file_search, cleanup_vector_store, List.filter_append, hDF0, isDeleteFile]
        · simp [run_file_search, cleanup_vector_store, List.filter_append, hDF0, isDeleteFile,
            smart_sleep_filter_deleteFile]

/-- Witness for the amended C1: on the happy path the setup returned "vs-1",
so the match selects the empty list — no file-handle teardown. -/
theorem file_job_file_teardown_only_on_setup_failure_witness :
    (process_job happyJob "stash/run" 0 5 "ts" happyOracle).2.filter isDeleteFile
      = (match (setup_file_search_vector_store happyOracle.setup 5 "docs/doc.pdf" "ts").1 with
         | .err _ => [Event.deleteFile "file-1" happyOracle.setup.deleteFileRaises]
         | _ => []) :=
  file_job_file_teardown_only_on_setup_failure happyJob "stash/run" 0 5 "ts" happyOracle
    "file" "docs/doc.pdf" "file-1" rfl (by decide) rfl rfl rfl

/-- C8: a `file` job whose target path does not exist performs no remote
operation at all — the event trace is empty, so in particular no upload,
creation, add-file, status retrieve or query happened — and raises
`FileNotFoundError`, which the job loop classifies as an input-file
failure, tallies, and survives: the remaining jobs are still dispatched. -/
theorem missing_file_no_remote_ops
    (job : Job) (outdir : String) (sleep_s pollInterval : ℚ) (ts : String) (o : JobOracle)
    (ty p : String) (rest : List (Job × JobOracle))
    (hty : job.type? = some ty) (hfile : pyLower ty = "file")
    (hpath : job.file_path? = some p) (hex : o.fileExists = false) :
    process_job job outdir sleep_s pollInterval ts o
      = (.err ⟨.fileNotFound, "File not found at path: " ++ p⟩, [])
    ∧ classify ⟨.fileNotFound, "File not found at path: " ++ p⟩ = .inputFileNotFound
    ∧ (runJobs outdir sleep_s pollInterval ts ((job, o) :: rest)).1
        = (runJobs outdir sleep_s pollInterval ts rest).1 + 1
    ∧ (runJobs outdir sleep_s pollInterval ts ((job, o) :: rest)).2.1
        = .err ⟨.fileNotFound, "File not found at path: " ++ p⟩
            :: (runJobs outdir sleep_s pollInterval ts rest).2.1 := by
  have h1 : process_job job outdir sleep_s pollInterval ts o
      = (.err ⟨.fileNotFound, "File not found at path: " ++ p⟩, []) := by
    unfold process_job
    rw [hty]
    simp only [hfile]
    rw [if_neg (by decide : ¬ ("file" : String) = "web")]
    rw [hpath]
    simp [hex]
  refine ⟨h1, rfl, ?_, ?_⟩ <;>
  · rcases hr : runJobs outdir sleep_s pollInterval ts rest with ⟨n, outs, evs⟩
    simp [runJobs, h1, hr]

/-- A `file` job pointing at a path that does not exist. -/
def missingFileJob : Job :=
  ⟨some "file", some "Summarize the document.", some "m.json", none, some "docs/missing.pdf"⟩

/-- Oracle for the missing-file job: the local existence check fails; the
remote oracles are never consulted. -/
def missingFileOracle : JobOracle :=
  ⟨false, happySetup, .ok happyResponse, .ok happyResponse, false⟩

/-- Witness for C8: the concrete missing-file job produces an empty trace,
a `FileNotFoundError`, and one counted failure. -/
theorem missing_file_no_remote_ops_witness :
    process_job missingFileJob "stash/run" 0 5 "ts" missingFileOracle
      = (.err ⟨.fileNotFound, "File not found at path: docs/missing.pdf"⟩, [])
    ∧ (runJobs "stash/run" 0 5 "ts" [(missingFileJob, missingFileOracle)]).1 = 1 := by
  have h := missing_file_no_remote_ops missingFileJob "stash/run" 0 5 "ts" missingFileOracle
    "file" "docs/missing.pdf" [] rfl (by decide) rfl rfl
  refine ⟨?_, ?_⟩
  · simpa using h.1
  · have h3 := h.2.2.1
    simpa [runJobs] using h3

/-! ## The job loop -/

/-- Reduction of `process_job` on a `web` job (lines 223-225 plus the
shared output-writing tail). -/
theorem process_job_web_eq (job : Job) (outdir : String) (sleep_s pollInterval : ℚ)
    (ts : String) (o : JobOracle) (ty : String)
    (hty : job.type? = some ty) (hweb : pyLower ty = "web") :
    process_job job outdir sleep_s pollInterval ts o =
      match job.query? with
      | none => (.err ⟨.keyError, "query"⟩, [])
      | some q =>
        match run_web_search q ts (resolveModel job.model? DEFAULT_WEB_MODEL) o.webQuery with
        | (.error e, evs) => (.err e, evs)
        | (.ok _, evs) =>
          match job.out? with
          | none => (.err ⟨.keyError, "out"⟩, evs)
          | some out =>
              (.ok (), evs ++ [.writeOutput (jobOutPath outdir out)] ++ smart_sleep sleep_s) := by
  unfold process_job
  rw [hty]
  simp only [hweb]
  simp only [if_true]

/-- Helper: when no job of the list hangs, the loop reaches and records
every job, in order. -/
theorem runJobs_attempts_all (outdir : String) (sleep_s pollInterval : ℚ) (ts : String)
    (l : List (Job × JobOracle))
    (h : ∀ jo ∈ l, (process_job jo.1 outdir sleep_s pollInterval ts jo.2).1 ≠ .hang) :
    (runJobs outdir sleep_s pollInterval ts l).2.1.length = l.length := by
  induction l with
  | nil => rfl
  | cons jo rest ih =>
    obtain ⟨j, o⟩ := jo
    rcases hpj : process_job j outdir sleep_s pollInterval ts o with ⟨r, evs⟩
    have hhd := h (j, o) (by simp)
    rw [hpj] at hhd
    rcases hr : runJobs outdir sleep_s pollInterval ts rest with ⟨n, outs, evss⟩
    have ih' := ih fun jo hmem => h jo (by simp [hmem])
    rw [hr] at ih'
    cases r with
    | hang => exact absurd rfl hhd
    | ok u => simp only [runJobs, hpj, hr]; simpa using ih'
    | err e => simp only [runJobs, hpj, hr]; simpa using ih'

/-- Helper: the failure tally equals the number of per-job outcomes that
are propagating exceptions. -/
theorem runJobs_count_eq_errs (outdir : String) (sleep_s pollInterval : ℚ) (ts : String)
    (l : List (Job × JobOracle)) :
    (runJobs outdir sleep_s pollInterval ts l).1
      = (runJobs outdir sleep_s pollInterval ts l).2.1.countP isErr := by
  induction l with
  | nil => rfl
  | cons jo rest ih =>
    obtain ⟨j, o⟩ := jo
    rcases hpj : process_job j outdir sleep_s pollInterval ts o with ⟨r, evs⟩
    rcases hr : runJobs outdir sleep_s pollInterval ts rest with ⟨n, outs, evss⟩
    rw [hr] at ih
    simp only [Prod.fst, Prod.snd] at ih
    cases r with
    | hang => simp [runJobs, hpj, List.countP_cons, isErr]
    | ok u =>
      simp only [runJobs, hpj, hr, List.countP_cons, isErr]
      simpa using ih
    | err e =>
      simp [runJobs, hpj, hr, List.countP_cons, isErr]
      omega

/-- C4: when no job blocks forever in the polling loop, an exception raised
while processing one job never prevents the loop from attempting every
subsequent job — one outcome is recorded per job — and the final failure
tally equals exactly the number of jobs whose processing raised. -/
theorem run_isolates_failures_and_counts (outdir : String) (sleep_s pollInterval : ℚ)
    (ts : String) (l : List (Job × JobOracle))
    (h : ∀ jo ∈ l, (process_job jo.1 outdir sleep_s pollInterval ts jo.2).1 ≠ .hang) :
    (runJobs outdir sleep_s pollInterval ts l).2.1.length = l.length
    ∧ (runJobs outdir sleep_s pollInterval ts l).1
        = (runJobs outdir sleep_s pollInterval ts l).2.1.countP isErr :=
  ⟨runJobs_attempts_all outdir sleep_s pollInterval ts l h,
   runJobs_count_eq_errs outdir sleep_s pollInterval ts l⟩

/-- A plain successful `web` job. -/
def webJob : Job :=
  ⟨some "web", some "latest emperor penguin population study", some "penguin.json", none, none⟩

/-- Oracle under which both query calls succeed. -/
def webOracle : JobOracle :=
  ⟨true, happySetup, .ok happyResponse, .ok happyResponse, false⟩

/-- Witness for C4: a 3-job list whose middle job fails on a missing input
file — 3 outcomes recorded, tally equals the number of raising jobs. -/
theorem run_isolates_failures_and_counts_witness :
    (runJobs "stash/run" 0 5 "ts"
        [(webJob, webOracle), (missingFileJob, missingFileOracle), (webJob, webOracle)]).2.1.length
      = 3
    ∧ (runJobs "stash/run" 0 5 "ts"
        [(webJob, webOracle), (missingFileJob, missingFileOracle), (webJob, webOracle)]).1
      = (runJobs "stash/run" 0 5 "ts"
        [(webJob, webOracle), (missingFileJob, missingFileOracle), (webJob, webOracle)]).2.1.countP
          isErr := by
  have h := run_isolates_failures_and_counts "stash/run" 0 5 "ts"
    [(webJob, webOracle), (missingFileJob, missingFileOracle), (webJob, webOracle)] (by decide)
  exact ⟨h.1, h.2⟩

/-- Counterexample to C6: a run with exactly one failed job still exits
with status 0 — `cli` prints the summary and returns, there is no
`sys.exit` after the job loop. -/
theorem failed_run_exits_zero :
    (runJobs "stash/run" 0 5 "ts" [(missingFileJob, missingFileOracle)]).1 = 1
    ∧ cliExitCode (runJobs "stash/run" 0 5 "ts" [(missingFileJob, missingFileOracle)]).1 = 0 := by
  decide

/-- C6 amended: the process exit status after the job loop is 0 regardless
of how many jobs failed; failures are reported only in the printed summary
line; and no individual failure aborts the run — with no hanging job, every
job of the list is attempted. -/
theorem exit_code_always_zero_failures_nonfatal (n : Nat) (outdir : String)
    (sleep_s pollInterval : ℚ) (ts : String) (l : List (Job × JobOracle))
    (h : ∀ jo ∈ l, (process_job jo.1 outdir sleep_s pollInterval ts jo.2).1 ≠ .hang) :
    cliExitCode n = 0
    ∧ (n ≠ 0 →
        cliSummary n = "All jobs processed. " ++ toString n ++ " job(s) encountered errors.")
    ∧ (runJobs outdir sleep_s pollInterval ts l).2.1.length = l.length :=
  ⟨rfl, fun hn => by simp [cliSummary, hn],
   runJobs_attempts_all outdir sleep_s pollInterval ts l h⟩

/-- Witness for the amended C6: one failing job, exit code 0, summary
reports the failure, the single job was attempted. -/
theorem exit_code_always_zero_failures_nonfatal_witness :
    cliExitCode 1 = 0
    ∧ (1 ≠ 0 → cliSummary 1 = "All jobs processed. " ++ toString 1 ++ " job(s) encountered errors.")
    ∧ (runJobs "stash/run" 0 5 "ts" [(missingFileJob, missingFileOracle)]).2.1.length = 1 := by
  have h := exit_code_always_zero_failures_nonfatal 1 "stash/run" 0 5 "ts"
    [(missingFileJob, missingFileOracle)] (by decide)
  exact ⟨h.1, h.2.1, by simpa using h.2.2⟩

/-- A `web` job missing its required `query` field. -/
def noQueryJob : Job := ⟨some "web", none, some "b.json", none, none⟩

/-- A job with a type the dispatcher does not know. -/
def unknownTypeJob : Job := ⟨some "Book", some "find it", some "u.json", none, none⟩

/-- A `file` job missing its required `file_path` field. -/
def noPathFileJob : Job := ⟨some "file", some "summarize", some "n.json", none, none⟩

/-- Counterexample to C5: a job missing the required `query` field raises
`KeyError` at `job["query"]`, which none of the specific `except` clauses
catches — it falls to `except Exception` and is reported as an
"Unexpected error", not as a "Configuration error". -/
theorem missing_query_not_config_error :
    (process_job noQueryJob "stash/run" 0 5 "ts" webOracle).1 = .err ⟨.keyError, "query"⟩
    ∧ classify ⟨.keyError, "query"⟩ = .unexpectedError
    ∧ FailureClass.unexpectedError ≠ .configError := by decide

/-- C5 amended: an unknown job type, and a `file` job missing `file_path`,
raise `ValueError` and are classified as configuration errors; a `web` job
missing `query` instead raises `KeyError`, classified as an unexpected
error.  In every case the failure is counted and the run continues: for a
3-job list whose second job is missing `query`, jobs 1 and 3 succeed and
exactly 1 failure is reported. -/
theorem malformed_jobs_classification (job : Job) (outdir : String)
    (sleep_s pollInterval : ℚ) (ts : String) (o : JobOracle) (ty : String)
    (hty : job.type? = some ty) :
    (pyLower ty ≠ "web" → pyLower ty ≠ "file" →
      process_job job outdir sleep_s pollInterval ts o
        = (.err ⟨.valueError, "Unknown job type: " ++ pyLower ty⟩, [])
      ∧ classify ⟨.valueError, "Unknown job type: " ++ pyLower ty⟩ = .configError)
    ∧ (pyLower ty = "file" → job.file_path? = none →
      process_job job outdir sleep_s pollInterval ts o
        = (.err ⟨.valueError, "Job type file requires file_path for this script."⟩, [])
      ∧ classify ⟨.valueError, "Job type file requires file_path for this script."⟩
          = .configError)
    ∧ (pyLower ty = "web" → job.query? = none →
      process_job job outdir sleep_s pollInterval ts o = (.err ⟨.keyError, "query"⟩, [])
      ∧ classify ⟨.keyError, "query"⟩ = .unexpectedError)
    ∧ ((runJobs outdir sleep_s pollInterval ts
          [(webJob, webOracle), (noQueryJob, webOracle), (webJob, webOracle)]).1 = 1
      ∧ (runJobs outdir sleep_s pollInterval ts
          [(webJob, webOracle), (noQueryJob, webOracle), (webJob, webOracle)]).2.1
          = [.ok (), .err ⟨.keyError, "query"⟩, .ok ()]) := by
  have hwebjob : ∀ od : String, ∀ ss pi : ℚ, ∀ t : String,
      process_job webJob od ss pi t webOracle
        = (.ok (), [.queryWebSearch, .writeOutput (jobOutPath od "penguin.json")]
            ++ smart_sleep ss) := by
    intro od ss pi t
    rw [process_job_web_eq webJob od ss pi t webOracle "web" rfl (by decide)]
    simp [webJob, webOracle, run_web_search]
  have hnoquery : ∀ od : String, ∀ ss pi : ℚ, ∀ t : String,
      process_job noQueryJob od ss pi t webOracle = (.err ⟨.keyError, "query"⟩, []) := by
    intro od ss pi t
    rw [process_job_web_eq noQueryJob od ss pi t webOracle "web" rfl (by decide)]
    simp [noQueryJob]
  refine ⟨?_, ?_, ?_, ?_⟩
  · intro hw hf
    constructor
    · unfold process_job
      simp only [hty]
      rw [if_neg hw, if_neg hf]
    · rfl
  · intro hf hnopath
    constructor
    · unfold process_job
      simp only [hty, hf]
      simp only [if_true]
      simp only [hnopath]
      rw [if_neg (by decide : ¬ ("file" : String) = "web")]
    · rfl
  · intro hw hnoq
    constructor
    · rw [process_job_web_eq job outdir sleep_s pollInterval ts o ty hty hw, hnoq]
    · rfl
  · constructor
    · simp [runJobs, hwebjob, hnoquery]
    · simp [runJobs, hwebjob, hnoquery]

/-- Witness for the amended C5: the three malformed shapes at concrete
jobs, plus the concrete 3-job run counting exactly one failure. -/
theorem malformed_jobs_classification_witness :
    (process_job unknownTypeJob "stash/run" 0 5 "ts" webOracle
        = (.err ⟨.valueError, "Unknown job type: book"⟩, []))
    ∧ (process_job noPathFileJob "stash/run" 0 5 "ts" webOracle
        = (.err ⟨.valueError, "Job type file requires file_path for this script."⟩, []))
    ∧ (process_job noQueryJob "stash/run" 0 5 "ts" webOracle
        = (.err ⟨.keyError, "query"⟩, []))
    ∧ (runJobs "stash/run" 0 5 "ts"
        [(webJob, webOracle), (noQueryJob, webOracle), (webJob, webOracle)]).1 = 1 := by
  have h1 := malformed_jobs_classification unknownTypeJob "stash/run" 0 5 "ts" webOracle
    "Book" rfl
  have h2 := malformed_jobs_classification noPathFileJob "stash/run" 0 5 "ts" webOracle
    "file" rfl
  have h3 := malformed_jobs_classification noQueryJob "stash/run" 0 5 "ts" webOracle
    "web" rfl
  refine ⟨?_, ?_, ?_, h1.2.2.2.1⟩
  · have := (h1.1 (by decide) (by decide)).1
    simpa using this
  · exact (h2.2.1 (by decide) rfl).1
  · exact (h3.2.2.1 (by decide) rfl).1

/-- A second, distinct `web` job that reuses the `out` field of `webJob`. -/
def webJobDup : Job :=
  ⟨some "web", some "a different penguin question", some "penguin.json", none, none⟩

/-- Counterexample to C9: two distinct jobs of the same run whose `out`
fields coincide write to the same path — the run writes
`outdir / job["out"]` per job, so the second write replaces the first
job's persisted record within the same timestamped run directory. -/
theorem same_out_field_overwrites_within_run :
    webJob ≠ webJobDup
    ∧ writtenPaths
        (runJobs "stash/20250101_000000" 0 5 "ts"
          [(webJob, webOracle), (webJobDup, webOracle)]).2.2
        = [⟨false, ["stash", "20250101_000000", "penguin.json"]⟩,
           ⟨false, ["stash", "20250101_000000", "penguin.json"]⟩]
    ∧ ¬ (writtenPaths
        (runJobs "stash/20250101_000000" 0 5 "ts"
          [(webJob, webOracle), (webJobDup, webOracle)]).2.2).Nodup := by
  decide

/-- A segment list with no separator is a single segment. -/
theorem splitSlash_of_no_slash (l : List Char) (h : '/' ∉ l) :
    splitSlash l = [l] := by
  induction l with
  | nil => rfl
  | cons c rest ih =>
    have hc : ¬ c = '/' := by
      intro hcc
      subst hcc
      exact h (List.mem_cons_self _ _)
    have hr : '/' ∉ rest := fun hm => h (List.mem_cons_of_mem c hm)
    simp [splitSlash, hc, ih hr]

/-- A plain file name: non-empty, not "." or "..", and without a path
separator.  For such an `out` field pathlib's parse keeps exactly the one
segment, nothing collapses, nothing escapes. -/
def isPlainName (s : String) : Bool :=
  !s.data.isEmpty && s.data != ['.'] && s.data != ['.', '.']
    && decide ('/' ∉ s.data)

/-- A plain name parses to a single-segment relative path. -/
theorem parsePath_plain (s : String) (h : isPlainName s = true) :
    parsePath s = ⟨false, [s]⟩ := by
  have hp := h
  simp only [isPlainName, Bool.and_eq_true, Bool.not_eq_true', List.isEmpty_eq_false,
    bne_iff_ne, ne_eq, decide_eq_true_eq] at hp
  obtain ⟨⟨⟨h1, h2⟩, h3⟩, h4⟩ := hp
  unfold parsePath
  rw [splitSlash_of_no_slash s.data h4]
  have habs : startsWithSlash s.data = false := by
    cases hd : s.data with
    | nil => rfl
    | cons c rest =>
      have hc : (c == '/') = false := by
        rw [beq_eq_false_iff_ne]
        intro hcc
        subst hcc
        exact h4 (hd ▸ List.mem_cons_self _ _)
      simp [startsWithSlash, hc]
  rw [habs]
  have hkeep : keepSeg s.data = true := by
    simp [keepSeg, h1, h2]
  simp only [List.filter_cons, hkeep, if_true, List.filter_nil, List.map_cons, List.map_nil]

/-- C9 amended: the path written for a job is a pure function of the run
directory and the job's `out` field, with pathlib's join semantics.  For
jobs whose `out` fields are plain file names (non-empty, no separator, not
"." or ".."), distinct names write to distinct paths within a run, and
runs whose timestamps differ (again plain names, as the generated
`%Y%m%d_%H%M%S` stamps are) write into distinct run directories.  Beyond
plain names nothing is guaranteed: pathlib collapses "." segments and
repeated separators — "a.json" and "./a.json" are distinct strings naming
the same path — and an absolute `out` replaces the run directory
entirely, escaping it; and two jobs of the same run sharing an `out`
value overwrite each other (see the counterexample). -/
theorem output_paths_distinct_for_distinct_plain_out_fields
    (outdir outdirBase ts1 ts2 o1 o2 : String)
    (ho1 : isPlainName o1 = true) (ho2 : isPlainName o2 = true)
    (ht1 : isPlainName ts1 = true) (ht2 : isPlainName ts2 = true) :
    (o1 ≠ o2 → jobOutPath outdir o1 ≠ jobOutPath outdir o2)
    ∧ (ts1 ≠ ts2 → runOutDir outdirBase ts1 ≠ runOutDir outdirBase ts2)
    ∧ jobOutPath outdir "a.json" = jobOutPath outdir "./a.json"
    ∧ jobOutPath outdir "/tmp/a.json" = parsePath "/tmp/a.json" := by
  refine ⟨?_, ?_, ?_, ?_⟩
  · intro hne heq
    unfold jobOutPath at heq
    rw [parsePath_plain o1 ho1, parsePath_plain o2 ho2] at heq
    simp only [pathJoin, Bool.false_eq_true, if_false] at heq
    rw [PyPath.mk.injEq] at heq
    exact hne (List.cons.inj (List.append_cancel_left heq.2)).1
  · intro hne heq
    unfold runOutDir at heq
    rw [parsePath_plain ts1 ht1, parsePath_plain ts2 ht2] at heq
    simp only [pathJoin, Bool.false_eq_true, if_false] at heq
    rw [PyPath.mk.injEq] at heq
    exact hne (List.cons.inj (List.append_cancel_left heq.2)).1
  · unfold jobOutPath
    rw [show parsePath "./a.json" = parsePath "a.json" from by decide]
  · unfold jobOutPath pathJoin
    rw [if_pos (by decide : (parsePath "/tmp/a.json").absolute = true)]

/-- Witness for the amended C9: two distinct plain `out` names give
distinct paths in the same run directory, and two distinct timestamps give
distinct run directories. -/
theorem output_paths_distinct_for_distinct_plain_out_fields_witness :
    jobOutPath "stash/20250101_000000" "a.json" ≠ jobOutPath "stash/20250101_000000" "b.json"
    ∧ runOutDir "stash" "20250101_000000" ≠ runOutDir "stash" "20250101_000001" := by
  have h := output_paths_distinct_for_distinct_plain_out_fields "stash/20250101_000000"
    "stash" "20250101_000000" "20250101_000001" "a.json" "b.json"
    (by decide) (by decide) (by decide) (by decide)
  exact ⟨h.1 (by decide), h.2.1 (by decide)⟩
